import Mathlib

/-!
Shallow embedding of the Rust-Showcase repository's configuration loader
(src/match_result.rs) and string helper (src/lifetime_ownership.rs).

The loader reads the file num.txt; we model the observable state of that
file as an inductive: opening can fail with an io error, reading an opened
file can fail with an io error, or reading yields the full text content.
The loader's run then either returns a value, returns an error, or panics
(the source calls unwrap on the integer parse).
-/

/-- Message carried by a std io Error; to_string on the error yields it. -/
structure IoError where
  msg : String
deriving DecidableEq

/-- Kind of a std ParseIntError produced by str::parse for i32. -/
inductive IntErrorKind where
  | empty
  | invalidDigit
  | posOverflow
  | negOverflow
deriving DecidableEq

/-- Std ParseIntError: carries only its kind. -/
structure ParseIntError where
  kind : IntErrorKind
deriving DecidableEq

/-- Display text of a ParseIntError (its to_string), the fixed std messages. -/
def ParseIntError.msgOf (e : ParseIntError) : String :=
  match e.kind with
  | .empty => "cannot parse integer from empty string"
  | .invalidDigit => "invalid digit found in string"
  | .posOverflow => "number too large to fit in target type"
  | .negOverflow => "number too small to fit in target type"

/-- MyError from match_result.rs: a struct holding a single message string. -/
structure MyError where
  msg : String
deriving DecidableEq

/-- Embeds the impl From of std io Error for MyError: the msg field is
e.to_string(), the io error's message. -/
def MyError.fromIo (e : IoError) : MyError :=
  ⟨e.msg⟩

/-- Embeds the impl From of ParseIntError for MyError: the msg field is
e.to_string(). -/
def MyError.fromParse (e : ParseIntError) : MyError :=
  ⟨e.msgOf⟩

/-- Nonempty run of ASCII digits: the digit-body check of i32 from_str. -/
def digitRun (cs : List Char) : Bool :=
  !cs.isEmpty && cs.all Char.isDigit

/-- Value of a digit list, most significant digit first. -/
def natOfDigits (cs : List Char) : Nat :=
  cs.foldl (fun acc c => 10 * acc + (c.toNat - 48)) 0

/-- Mathematical integer denoted by a character list under the grammar of
i32 from_str (an optional single leading sign, then one or more ASCII
digits), with no range restriction. -/
def denotedIntChars : List Char → Option Int
  | [] => none
  | c :: rest =>
    if c = '+' then
      if digitRun rest then some ((natOfDigits rest : Nat) : Int) else none
    else if c = '-' then
      if digitRun rest then some (-((natOfDigits rest : Nat) : Int)) else none
    else
      if digitRun (c :: rest) then some ((natOfDigits (c :: rest) : Nat) : Int)
      else none

/-- Mathematical integer denoted by a string, sign and digits, unbounded. -/
def denotedInt (s : String) : Option Int :=
  denotedIntChars s.toList

/-- Smallest i32 value. -/
def i32Min : Int := -(2 ^ 31)

/-- Largest i32 value. -/
def i32Max : Int := 2 ^ 31 - 1

/-- Embeds content.parse::<i32>() from the source: Rust's checked digit
accumulation succeeds exactly when the denoted integer fits in i32; none
stands for Err(ParseIntError) of any kind. -/
def parseI32 (s : String) : Option Int :=
  match denotedInt s with
  | some v => if i32Min ≤ v ∧ v ≤ i32Max then some v else none
  | none => none

/-- Setting struct from match_result.rs: the carrier of settings data,
field n holds an i32 value. -/
structure Setting where
  n : Int
deriving DecidableEq

/-- Result of reading an opened file to a string: either an io failure
mid-read, or the full text content. -/
inductive FileRead where
  | fails (e : IoError)
  | content (s : String)
deriving DecidableEq

/-- State of the configuration source file num.txt: opening it either
fails with an io error (absent file, permission denied, any open failure),
or yields a handle whose read behaves as recorded. -/
inductive FileState where
  | openFails (e : IoError)
  | opened (r : FileRead)
deriving DecidableEq

/-- Embeds read_conf_file from match_result.rs: File::open on the path,
an io Result holding the opened handle or the open failure. -/
def read_conf_file (fs : FileState) : Except IoError FileRead :=
  match fs with
  | .openFails e => .error e
  | .opened r => .ok r

/-- Observable outcome of running get_conf_val: a returned Ok value, a
returned Err value, or a panic (the source unwraps the parse result). -/
inductive Outcome where
  | ok (s : Setting)
  | err (e : MyError)
  | panicked
deriving DecidableEq

/-- True exactly on a returned Ok outcome. -/
def Outcome.isOk : Outcome → Bool
  | .ok _ => true
  | _ => false

/-- True exactly on a returned Err outcome. -/
def Outcome.isErr : Outcome → Bool
  | .err _ => true
  | _ => false

/-- Embeds get_conf_val from match_result.rs. The source opens num.txt via
read_conf_file; on the if-let Ok branch it reads the file to a string,
propagating a read failure with the question-mark operator (converted to
MyError via From), then parses the content as i32 and unwraps, panicking
on a parse failure; on the else branch (open failed) it returns the
fallback Ok(Setting with n = 5). -/
def get_conf_val (fs : FileState) : Outcome :=
  match read_conf_file fs with
  | .ok f =>
    match f with
    | .fails e => .err (MyError.fromIo e)
    | .content c =>
      match parseI32 c with
      | some n => .ok ⟨n⟩
      | .none => .panicked
  | .error _ => .ok ⟨5⟩

/-- Embeds longest from lifetime_ownership.rs: returns a when a.len() is
strictly greater than b.len(), else b. Rust len() is the byte length. -/
def longest (a b : String) : String :=
  if a.utf8ByteSize > b.utf8ByteSize then a else b

/-- Modelled from the claim wording of C8: two run results agree when both
are Ok with equal n, or both are Err. A panic matches neither arm. -/
def specAgreeOkOrErr (o1 o2 : Outcome) : Bool :=
  match o1, o2 with
  | .ok s1, .ok s2 => s1.n == s2.n
  | .err _, .err _ => true
  | _, _ => false

/-- Agreement of two run outcomes, the panic outcome included. -/
def outcomesAgree (o1 o2 : Outcome) : Bool :=
  match o1, o2 with
  | .ok s1, .ok s2 => s1.n == s2.n
  | .err _, .err _ => true
  | .panicked, .panicked => true
  | _, _ => false

/-- Stage of failure, as the spec's tagged LoadError would record it. -/
inductive FailStage where
  | ioFail
  | parseFail
deriving DecidableEq

/-- Helper: toList distributes over string append. -/
lemma toList_append (s t : String) : (s ++ t).toList = s.toList ++ t.toList :=
  rfl

/-- Helper: a digit run never ends in a newline character. -/
lemma all_digits_append_newline (l : List Char) :
    (l ++ ['\n']).all Char.isDigit = false := by
  rw [List.all_append]
  have h : ('\n').isDigit = false := by decide
  simp [h]

/-- Helper: appending a newline breaks the digit-run check. -/
lemma digitRun_append_newline (l : List Char) :
    digitRun (l ++ ['\n']) = false := by
  simp [digitRun, all_digits_append_newline]

/-- Helper: no character list followed by a newline denotes an integer. -/
lemma denotedIntChars_append_newline (l : List Char) :
    denotedIntChars (l ++ ['\n']) = none := by
  cases l with
  | nil => decide
  | cons c rest =>
    have hd : digitRun (rest ++ ['\n']) = false := digitRun_append_newline rest
    have hd2 : digitRun (c :: (rest ++ ['\n'])) = false := by
      have h := digitRun_append_newline (c :: rest)
      simpa using h
    simp only [List.cons_append, denotedIntChars]
    simp [hd, hd2]

/-- Helper: a string with a trailing newline never parses as an i32. -/
lemma parseI32_append_newline (s : String) : parseI32 (s ++ "\n") = none := by
  have h : (s ++ "\n").toList = s.toList ++ ['\n'] := toList_append s "\n"
  simp [parseI32, denotedInt, h, denotedIntChars_append_newline]

/-- Helper: readable content that parses yields the parsed setting. -/
lemma get_conf_val_content_some {c : String} {n : Int}
    (h : parseI32 c = some n) :
    get_conf_val (.opened (.content c)) = .ok ⟨n⟩ := by
  simp [get_conf_val, read_conf_file, h]

/-- Helper: readable content that fails to parse makes the run panic. -/
lemma get_conf_val_content_none {c : String} (h : parseI32 c = none) :
    get_conf_val (.opened (.content c)) = .panicked := by
  simp [get_conf_val, read_conf_file, h]

/-- Helper: a successful i32 parse lies within the i32 range. -/
lemma parseI32_mem_range {c : String} {n : Int} (h : parseI32 c = some n) :
    i32Min ≤ n ∧ n ≤ i32Max := by
  cases hd : denotedInt c with
  | none => simp [parseI32, hd] at h
  | some v =>
    simp only [parseI32, hd] at h
    by_cases hr : i32Min ≤ v ∧ v ≤ i32Max
    · rw [if_pos hr] at h
      injection h with h
      subst h
      exact hr
    · rw [if_neg hr] at h
      exact absurd h (by simp)

/-- C3: for every file state in which the source cannot be opened, for any
reason at all, get_conf_val returns Ok(Setting with n = 5), the hardcoded
fallback, and never an error. -/
theorem c3_open_failure_fallback (e : IoError) :
    get_conf_val (.openFails e) = .ok ⟨5⟩ :=
  rfl

/-- C4: if the source exists and its entire content is a string that parses
as a valid i32 value n, then get_conf_val returns Ok(Setting with that n). -/
theorem c4_valid_content_parsed (c : String) (n : Int)
    (h : parseI32 c = some n) :
    get_conf_val (.opened (.content c)) = .ok ⟨n⟩ :=
  get_conf_val_content_some h

/-- C4 witness: content 42 yields Ok(Setting with n = 42). -/
theorem c4_witness :
    parseI32 "42" = some 42 ∧
    get_conf_val (.opened (.content "42")) = .ok ⟨42⟩ :=
  ⟨rfl, c4_valid_content_parsed "42" 42 rfl⟩

/-- C1 counterexample: with readable content abc (not a valid integer),
get_conf_val panics from the unwrap; it does not return any Err value, so
it does not return a typed parse error. -/
theorem c1_counterexample :
    get_conf_val (.opened (.content "abc")) = .panicked ∧
    (get_conf_val (.opened (.content "abc"))).isErr = false :=
  ⟨rfl, rfl⟩

/-- C1 (amended): for every file state in which the source is readable and
its content does not parse as an i32, get_conf_val panics (the source
unwraps the parse result) instead of returning a typed parse error. -/
theorem c1_parse_failure_panics (c : String) (h : parseI32 c = none) :
    get_conf_val (.opened (.content c)) = .panicked :=
  get_conf_val_content_none h

/-- C1 witness: content abc does not parse and the run panics. -/
theorem c1_witness :
    parseI32 "abc" = none ∧
    get_conf_val (.opened (.content "abc")) = .panicked :=
  ⟨rfl, c1_parse_failure_panics "abc" rfl⟩

/-- C2 counterexample: with readable content 4.2 the outcome of
get_conf_val is neither a returned Ok nor a returned Err: the run panics. -/
theorem c2_counterexample :
    (get_conf_val (.opened (.content "4.2"))).isOk = false ∧
    (get_conf_val (.opened (.content "4.2"))).isErr = false ∧
    get_conf_val (.opened (.content "4.2")) = .panicked :=
  ⟨rfl, rfl, rfl⟩

/-- C2 (amended): for every file state get_conf_val terminates with exactly
one of a returned Ok, a returned Err, or a panic; and it panics precisely
when the source is opened and fully read but the content fails to parse as
an i32. -/
theorem c2_outcome_totality (fs : FileState) :
    ((∃ s, get_conf_val fs = .ok s) ∨ (∃ e, get_conf_val fs = .err e) ∨
      get_conf_val fs = .panicked) ∧
    (get_conf_val fs = .panicked ↔
      ∃ c, fs = .opened (.content c) ∧ parseI32 c = none) := by
  cases fs with
  | openFails e =>
    refine ⟨Or.inl ⟨⟨5⟩, rfl⟩, ?_⟩
    constructor
    · intro h
      exact absurd h (by simp [get_conf_val, read_conf_file])
    · rintro ⟨c, hc, -⟩
      exact absurd hc (by simp)
  | opened r =>
    cases r with
    | fails e =>
      refine ⟨Or.inr (Or.inl ⟨MyError.fromIo e, rfl⟩), ?_⟩
      constructor
      · intro h
        exact absurd h (by simp [get_conf_val, read_conf_file])
      · rintro ⟨c, hc, -⟩
        exact absurd hc (by simp)
    | content c =>
      cases hp : parseI32 c with
      | some n =>
        refine ⟨Or.inl ⟨⟨n⟩, get_conf_val_content_some hp⟩, ?_⟩
        constructor
        · intro h
          rw [get_conf_val_content_some hp] at h
          exact absurd h (by simp)
        · rintro ⟨c', hc', hn⟩
          injection hc' with hc'
          injection hc' with hc'
          subst hc'
          rw [hp] at hn
          exact Option.noConfusion hn
      | none =>
        exact ⟨Or.inr (Or.inr (get_conf_val_content_none hp)),
          fun _ => ⟨c, rfl, hp⟩, fun _ => get_conf_val_content_none hp⟩

/-- C5 counterexample: content 42 followed by a newline (untrimmed
whitespace) does not load successfully; the run panics. -/
theorem c5_counterexample :
    get_conf_val (.opened (.content "42\n")) = .panicked ∧
    (get_conf_val (.opened (.content "42\n"))).isOk = false :=
  ⟨rfl, rfl⟩

/-- C5 (amended): the content is not trimmed before parsing: for every
string s that parses as a valid i32, content consisting of s followed by a
trailing newline fails to parse and get_conf_val panics instead of
returning Ok. -/
theorem c5_untrimmed_whitespace_fails (s : String) (n : Int)
    (h : parseI32 s = some n) :
    get_conf_val (.opened (.content (s ++ "\n"))) = .panicked :=
  get_conf_val_content_none (parseI32_append_newline s)

/-- C5 witness: 42 parses, and content 42 with a trailing newline makes
the run panic. -/
theorem c5_witness :
    parseI32 "42" = some 42 ∧
    get_conf_val (.opened (.content ("42" ++ "\n"))) = .panicked :=
  ⟨rfl, c5_untrimmed_whitespace_fails "42" 42 rfl⟩

/-- C6 counterexample: the value that get_conf_val returns for a mid-read
io failure is identical to the conversion of a ParseIntError with the same
message, so the returned error is not an Io-tagged value of a tagged
union. -/
theorem c6_counterexample :
    get_conf_val (.opened (.fails ⟨"invalid digit found in string"⟩)) =
      .err (MyError.fromParse ⟨IntErrorKind.invalidDigit⟩) :=
  rfl

/-- C6 (amended): for every file state in which the source opens but a
failure occurs while reading, get_conf_val returns Err(MyError) whose msg
field is the io failure's message; MyError is untagged, so the value does
not record that the failing stage was io. -/
theorem c6_read_failure_message (e : IoError) :
    get_conf_val (.opened (.fails e)) = .err ⟨e.msg⟩ :=
  rfl

/-- C7 counterexample: no function of the error value alone can report
which stage failed, because an io failure and a parse failure with equal
messages convert to identical MyError values. -/
theorem c7_counterexample :
    ¬ ∃ stage : MyError → FailStage,
        (∀ e : IoError, stage (MyError.fromIo e) = FailStage.ioFail) ∧
        (∀ p : ParseIntError,
          stage (MyError.fromParse p) = FailStage.parseFail) := by
  rintro ⟨stage, hi, hp⟩
  have heq : MyError.fromIo ⟨"invalid digit found in string"⟩ =
      MyError.fromParse ⟨IntErrorKind.invalidDigit⟩ := rfl
  have h1 := hi ⟨"invalid digit found in string"⟩
  have h2 := hp ⟨IntErrorKind.invalidDigit⟩
  rw [heq] at h1
  rw [h1] at h2
  exact FailStage.noConfusion h2

/-- C7 (amended): the error type MyError is a struct with a single String
field; the two conversions with equal messages produce equal values, so
the error value carries only a message, not which stage failed. -/
theorem c7_untagged_error (e : IoError) (p : ParseIntError)
    (h : e.msg = p.msgOf) :
    MyError.fromIo e = MyError.fromParse p := by
  simp [MyError.fromIo, MyError.fromParse, h]

/-- C7 witness: an io error and a parse error with the same message
convert to the same MyError value. -/
theorem c7_witness :
    MyError.fromIo ⟨"invalid digit found in string"⟩ =
      MyError.fromParse ⟨IntErrorKind.invalidDigit⟩ :=
  c7_untagged_error ⟨"invalid digit found in string"⟩
    ⟨IntErrorKind.invalidDigit⟩ rfl

/-- C8 counterexample: on the fixed file state with readable content x,
two invocations of get_conf_val satisfy neither claimed arm (both Ok with
equal n, or both Err): both runs panic. -/
theorem c8_counterexample :
    specAgreeOkOrErr (get_conf_val (.opened (.content "x")))
      (get_conf_val (.opened (.content "x"))) = false :=
  rfl

/-- C8 (amended): get_conf_val is deterministic in the file state: on any
fixed state, two invocations agree: both Ok with equal n, both Err, or
both panics. -/
theorem c8_deterministic_agreement (fs : FileState) :
    outcomesAgree (get_conf_val fs) (get_conf_val fs) = true := by
  cases h : get_conf_val fs with
  | ok s => simp [outcomesAgree]
  | err e => simp [outcomesAgree]
  | panicked => simp [outcomesAgree]

/-- C9: longest returns its first argument exactly when the first is
strictly longer, returns the second otherwise (equal lengths included),
always returns one of its two arguments, and the result's length is the
maximum of the two lengths. -/
theorem c9_longest_spec (a b : String) :
    (b.utf8ByteSize < a.utf8ByteSize → longest a b = a) ∧
    (a.utf8ByteSize ≤ b.utf8ByteSize → longest a b = b) ∧
    (longest a b = a ∨ longest a b = b) ∧
    (longest a b).utf8ByteSize = max a.utf8ByteSize b.utf8ByteSize := by
  unfold longest
  by_cases h : a.utf8ByteSize > b.utf8ByteSize
  · rw [if_pos h]
    exact ⟨fun _ => rfl, fun h2 => absurd h (not_lt.mpr h2), Or.inl rfl,
      (max_eq_left (le_of_lt h)).symm⟩
  · rw [if_neg h]
    have h2 : a.utf8ByteSize ≤ b.utf8ByteSize := not_lt.mp h
    exact ⟨fun h3 => absurd h3 h, fun _ => rfl, Or.inr rfl,
      (max_eq_right h2).symm⟩

/-- C9 witness: a strictly longer first argument is returned; with a
longer-or-equal second argument the second is returned. -/
theorem c9_witness :
    longest "ab" "c" = "ab" ∧ longest "a" "bc" = "bc" :=
  ⟨(c9_longest_spec "ab" "c").1 (by decide),
   (c9_longest_spec "a" "bc").2.1 (by decide)⟩

/-- C10: every Setting that get_conf_val returns has n within the i32
range, and content denoting an integer outside that range is never
returned as a successful Setting: the parse fails and the run panics,
with no truncation or wrapping. -/
theorem c10_i32_bounds :
    (∀ (fs : FileState) (s : Setting),
      get_conf_val fs = .ok s → i32Min ≤ s.n ∧ s.n ≤ i32Max) ∧
    (∀ (c : String) (m : Int), denotedInt c = some m →
      (m < i32Min ∨ i32Max < m) →
      get_conf_val (.opened (.content c)) = .panicked) := by
  constructor
  · intro fs s h
    obtain ⟨n⟩ := s
    cases fs with
    | openFails e =>
      simp [get_conf_val, read_conf_file] at h
      subst h
      decide
    | opened r =>
      cases r with
      | fails e =>
        simp [get_conf_val, read_conf_file] at h
      | content c =>
        cases hp : parseI32 c with
        | some m =>
          rw [get_conf_val_content_some hp] at h
          simp at h
          subst h
          simpa using parseI32_mem_range hp
        | none =>
          rw [get_conf_val_content_none hp] at h
          exact Outcome.noConfusion h
  · intro c m hd hout
    have hneg : ¬(i32Min ≤ m ∧ m ≤ i32Max) := by
      rintro ⟨h1, h2⟩
      rcases hout with h | h
      · exact absurd h1 (not_le.mpr h)
      · exact absurd h2 (not_le.mpr h)
    have hp : parseI32 c = none := by
      simp [parseI32, hd, hneg]
    exact get_conf_val_content_none hp

/-- C10 witness: the fallback value 5 lies within the i32 range, and the
out-of-range content 2147483648 makes the run panic rather than return. -/
theorem c10_witness :
    (i32Min ≤ (5 : Int) ∧ (5 : Int) ≤ i32Max) ∧
    get_conf_val (.opened (.content "2147483648")) = .panicked :=
  ⟨c10_i32_bounds.1 (.openFails ⟨"missing"⟩) ⟨5⟩ rfl,
   c10_i32_bounds.2 "2147483648" 2147483648 rfl (by decide)⟩
